import Mathlib

/-!
Verification development for the `target` package of the aedi misc-macos-deps
repository: declarative build recipes (`target/library.py`, `target/tool.py`,
`target/__init__.py`) for third-party libraries and tools, layered on an external
host framework (`aedi.target.base`, `aedi.state.BuildState`).

The recipes' text-rewrite helpers are pure functions on strings; Python's
`str.startswith` and `str.replace` are modelled on `List Char`.  Hook methods
(`prepare_source`, `detect`, `configure`, `build`, `post_build`) are modelled as
functions from recipe attributes and an explicit build state to a result that
carries the (possibly raised) exception, the recipe attributes and the build
state; external host effects (super() calls, subprocesses, file operations) are
recorded as trace actions on the build state.
-/

/-! ## Python string primitives -/

/-- Python `line.startswith(pre)`: `pre.data` is a prefix of `line.data`. -/
def pyStartswith (line pre : String) : Bool :=
  pre.data.isPrefixOf line.data

/-- Fuelled scanner behind Python `str.replace`: scans left to right, replacing
each non-overlapping occurrence of `pat` by `rep`.  Each step consumes at least
one character, so `fuel := s.length` always suffices (call sites use a
non-empty `pat`). -/
def pyReplaceAux (pat rep : List Char) : Nat → List Char → List Char
  | 0, s => s
  | _ + 1, [] => []
  | fuel + 1, c :: rest =>
    if pat.isPrefixOf (c :: rest) then
      rep ++ pyReplaceAux pat rep fuel (rest.drop (pat.length - 1))
    else
      c :: pyReplaceAux pat rep fuel rest

/-- Number of (non-overlapping, leftmost-first) occurrences of `pat` replaced by
the scanner; same recursion structure as `pyReplaceAux`. -/
def countOccAux (pat : List Char) : Nat → List Char → Nat
  | 0, _ => 0
  | _ + 1, [] => 0
  | fuel + 1, c :: rest =>
    if pat.isPrefixOf (c :: rest) then
      countOccAux pat fuel (rest.drop (pat.length - 1)) + 1
    else
      countOccAux pat fuel rest

def pyReplaceL (pat rep s : List Char) : List Char :=
  pyReplaceAux pat rep s.length s

def countOccL (pat s : List Char) : Nat :=
  countOccAux pat s.length s

/-- Python `s.replace(old, new)` (all occurrences, left to right). -/
def pyStrReplace (s old new : String) : String :=
  ⟨pyReplaceL old.data new.data s.data⟩

/-! ## The line-rewrite functions of the recipes

Each is a transcription of the corresponding Python function; all are pure
`String → String` (→ `String`) functions: they read no state and write none. -/

/-- `BrotliTarget._process_pkg_config` (library.py):
`line.replace('-R$\x7blibdir\x7d ', '') if line.startswith('Libs:') else line`. -/
def BrotliTarget.process_pkg_config (_pcfile line : String) : String :=
  if pyStartswith line "Libs:" then pyStrReplace line "-R$\x7blibdir\x7d " "" else line

/-- `Bzip2Target._process_pkg_config` (library.py):
`'' if line.startswith('bindir=') else line`. -/
def Bzip2Target.process_pkg_config (_pcfile line : String) : String :=
  if pyStartswith line "bindir=" then "" else line

/-- `Bzip3Target._process_pkg_config` (tool.py):
`'' if line.startswith('bindir=') else line`. -/
def Bzip3Target.process_pkg_config (_pcfile line : String) : String :=
  if pyStartswith line "bindir=" then "" else line

/-- `TiffTarget._process_pkg_config` (library.py). -/
def TiffTarget.process_pkg_config (_pcfile line : String) : String :=
  let version := "Version:"
  let cflags := "Cflags:"
  let libs := "Libs:"
  if pyStartswith line version then
    version ++ " 4.3.0\n"
  else if pyStartswith line cflags then
    cflags ++ " -I$\x7bincludedir\x7d\nRequires.private: libjpeg liblzma libwebp libzstd zlib\n"
  else if pyStartswith line libs then
    libs ++ " -L$\x7blibdir\x7d -ltiff\n"
  else
    line

/-- `patch_setup_h` nested in `WxWidgetsTarget.post_build` (library.py). -/
def WxWidgetsTarget.patch_setup_h (line : String) : String :=
  let pfx := "#define wxINSTALL_PREFIX "
  if pyStartswith line pfx then pfx ++ "\"/usr/local\"\n" else line

/-- `patch_wx_config` nested in `WxWidgetsTarget.post_build` (library.py).
The local variable called `prefix` in the source is named `pfx` here. -/
def WxWidgetsTarget.patch_wx_config (line : String) : String :=
  let pfx := "prefix=$\x7binput_option_prefix-$\x7bthis_prefix:-"
  let is_cross_func := "is_cross() "
  let is_cross_test := "is_cross && target="
  let output_option_cc := "[ -z \"$output_option_cc\" "
  let output_option_cxx := "[ -z \"$output_option_cxx\" "
  let output_option_ld := "[ -z \"$output_option_ld\" "
  let ldlibs_gl := "ldlibs_gl="
  if pyStartswith line pfx then
    pfx ++ "$(cd \"$\x7b0%/*\x7d/..\"; pwd)\x7d\x7d\n"
  else if pyStartswith line is_cross_func then
    is_cross_func ++ "\x7b false; \x7d\n"
  else if pyStartswith line is_cross_test then
    is_cross_test ++ "\"\"\n"
  else if pyStartswith line output_option_cc then
    output_option_cc ++ "] || echo \"gcc\"\n"
  else if pyStartswith line output_option_cxx then
    output_option_cxx ++ "] || echo \"g++\"\n"
  else if pyStartswith line output_option_ld then
    output_option_ld ++ "] || echo \"g++ -o\"\n"
  else if pyStartswith line ldlibs_gl then
    ldlibs_gl ++ "\"-lwx_baseu-3.1 -lwx_osx_cocoau_core-3.1 -framework OpenGL\"\n"
  else
    line

/-- The renaming applied to each glob-matched static archive in
`BrotliTarget.post_build` (library.py): `archive.replace('-static.a', '.a')`. -/
def BrotliTarget.archiveNewName (archive : String) : String :=
  pyStrReplace archive "-static.a" ".a"

/-- Number of occurrences of `'-static.a'` found by the replace scanner. -/
def staticSuffixCount (s : String) : Nat :=
  countOccL "-static.a".data s.data

/-! ## Target classes

One constructor per class instantiated by `targets()` (`target/__init__.py`).
27 classes are defined in src (`target/library.py`, `target/tool.py`); the
remaining four (`OpusFileTarget`, `BisonTarget`, `GraphvizTarget`,
`TimemoryTarget`) are invoked by `targets()` but their definitions are not in
the given sources, so their data is modelled from the spec (see
`modelledParent`, `modelledSourceSpec`, `modelledPkgName`). -/

inductive TargetClass where
  | BrotliTarget | Bzip2Target | ExpatTarget | FfiTarget | FreeImageTarget
  | GettextTarget | HighwayTarget | IconvTarget | IntlTarget | JpegTurboTarget
  | OpusFileTarget | TiffTarget | WxWidgetsTarget
  | AutoconfTarget | AutomakeTarget | BisonTarget | Bzip3Target | FFmpegTarget
  | GraphvizTarget | LuaTarget | M4Target | P7ZipTarget | PbzxTarget
  | Radare2Target | RizinTarget | SevenZipTarget | TimemoryTarget | UnrarTarget
  | XdeltaTarget | XzTarget | ZipTarget
deriving DecidableEq, BEq

/-- Base classes provided by the external host framework (`aedi.target.base`);
`unknownBase` stands for the unspecified host base of the four classes missing
from src. -/
inductive HostBase where
  | CMakeStaticDependencyTarget | ConfigureMakeStaticDependencyTarget
  | ConfigureMakeDependencyTarget | CMakeTarget | MakeTarget | MesonTarget
  | SingleExeCTarget | unknownBase
deriving DecidableEq, BEq

/-- The direct superclass of a target class: either a host base class
(external) or another target class of this repository. -/
inductive ParentClass where
  | host (b : HostBase)
  | repo (c : TargetClass)
deriving DecidableEq, BEq

/-- Modelled from the spec: the classes `OpusFileTarget`, `BisonTarget`,
`GraphvizTarget` and `TimemoryTarget` are invoked by `targets()` but are not
defined under src.  The spec states that all targets "share a common external
contract (the host's target base classes and build-state object) that is not
implemented here", so the superclass of each missing class is modelled as an
(unspecified) external host base class. -/
def modelledParent : ParentClass := .host .unknownBase

/-- Direct superclass of each target class, transcribed from the `class`
headers of library.py and tool.py; note `class IntlTarget(GettextTarget)`. -/
def parentOf : TargetClass → ParentClass
  | .BrotliTarget => .host .CMakeStaticDependencyTarget
  | .Bzip2Target => .host .CMakeStaticDependencyTarget
  | .ExpatTarget => .host .CMakeStaticDependencyTarget
  | .FfiTarget => .host .ConfigureMakeStaticDependencyTarget
  | .FreeImageTarget => .host .MakeTarget
  | .GettextTarget => .host .ConfigureMakeStaticDependencyTarget
  | .HighwayTarget => .host .CMakeStaticDependencyTarget
  | .IconvTarget => .host .ConfigureMakeStaticDependencyTarget
  | .IntlTarget => .repo .GettextTarget
  | .JpegTurboTarget => .host .CMakeStaticDependencyTarget
  | .OpusFileTarget => modelledParent
  | .TiffTarget => .host .CMakeStaticDependencyTarget
  | .WxWidgetsTarget => .host .CMakeStaticDependencyTarget
  | .AutoconfTarget => .host .ConfigureMakeDependencyTarget
  | .AutomakeTarget => .host .ConfigureMakeDependencyTarget
  | .BisonTarget => modelledParent
  | .Bzip3Target => .host .CMakeStaticDependencyTarget
  | .FFmpegTarget => .host .ConfigureMakeDependencyTarget
  | .GraphvizTarget => modelledParent
  | .LuaTarget => .host .MakeTarget
  | .M4Target => .host .ConfigureMakeDependencyTarget
  | .P7ZipTarget => .host .CMakeTarget
  | .PbzxTarget => .host .SingleExeCTarget
  | .Radare2Target => .host .MesonTarget
  | .RizinTarget => .host .MesonTarget
  | .SevenZipTarget => .host .MakeTarget
  | .TimemoryTarget => modelledParent
  | .UnrarTarget => .host .MakeTarget
  | .XdeltaTarget => .host .ConfigureMakeDependencyTarget
  | .XzTarget => .host .CMakeStaticDependencyTarget
  | .ZipTarget => .host .SingleExeCTarget

/-- Target classes of this repository whose code a class's method bodies
invoke.  Inspection of library.py and tool.py shows every explicit call goes to
`base.*` (the external host, e.g. `base.MakeTarget.configure` in
`XdeltaTarget.configure`), to `self`, or to `state`, never to another
repository target class by name; the one cross-class invocation is
`IntlTarget.configure`'s `super().configure(state)`, which resolves to the
inherited `GettextTarget.configure`.  For the four classes missing from src
the empty list follows from the spec's "No component depends on another within
this repository". -/
def invokedRepoClasses : TargetClass → List TargetClass
  | .IntlTarget => [.GettextTarget]
  | _ => []

/-- `c` depends on `c'`: `c` inherits from `c'` or invokes `c'`'s code. -/
def dependsOn (c c' : TargetClass) : Bool :=
  parentOf c == .repo c' || (invokedRepoClasses c).contains c'

/-! ## Source downloads (`prepare_source`) -/

/-- One `state.download_source(url, checksum, patches=...)` call. -/
structure SourceSpec where
  url : String
  checksum : String
  patches : Option String
deriving DecidableEq

/-- Modelled from the spec: the `prepare_source` bodies of the four target
classes missing from src.  The spec states each recipe specifies "a source URL,
checksum, patch set" via the hook "preparing source", i.e. a single
`download_source` call with one URL and one SHA-256 checksum (64 hexadecimal
digits); URL and digest values are placeholders of that shape. -/
def modelledSourceSpec (pkg : String) : SourceSpec :=
  ⟨"https://host.invalid/" ++ pkg ++ ".tar.gz",
   "0000000000000000000000000000000000000000000000000000000000000000", none⟩

/-- The sequence of `state.download_source` calls performed by each target's
`prepare_source` hook, transcribed from library.py and tool.py.
`IntlTarget` defines no `prepare_source` of its own and inherits
`GettextTarget.prepare_source`. -/
def prepareSourceCalls : TargetClass → List SourceSpec
  | .BrotliTarget =>
    [⟨"https://github.com/google/brotli/archive/refs/tags/v1.0.9.tar.gz",
      "f9e8d81d0405ba66d181529af42a3354f838c939095ff99930da6aa9cdf6fe46", none⟩]
  | .Bzip2Target =>
    [⟨"https://sourceware.org/pub/bzip2/bzip2-1.0.8.tar.gz",
      "ab5a03176ee106d3f0fa90e381da478ddae405918153cca248e682cd0c4a2269",
      some "bzip2-add-cmake"⟩]
  | .ExpatTarget =>
    [⟨"https://github.com/libexpat/libexpat/releases/download/R_2_4_1/expat-2.4.1.tar.xz",
      "cf032d0dba9b928636548e32b327a2d66b1aab63c4f4a13dd132c2d1d2f2fb6a", none⟩]
  | .FfiTarget =>
    [⟨"https://github.com/libffi/libffi/releases/download/v3.4.6/libffi-3.4.6.tar.gz",
      "b0dea9df23c863a7a50e825440f3ebffabd65df1497108e5d437747843895a4e", none⟩]
  | .FreeImageTarget =>
    [⟨"https://downloads.sourceforge.net/project/freeimage/Source%20Distribution/3.18.0/FreeImage3180.zip",
      "f41379682f9ada94ea7b34fe86bf9ee00935a3147be41b6569c9605a53e438fd",
      some "freeimage-fix-arm64"⟩]
  | .GettextTarget =>
    [⟨"https://ftp.gnu.org/gnu/gettext/gettext-0.21.tar.xz",
      "d20fcbb537e02dcf1383197ba05bd0734ef7bf5db06bdb241eb69b7d16b73192", none⟩]
  | .HighwayTarget =>
    [⟨"https://github.com/google/highway/archive/refs/tags/1.0.6.tar.gz",
      "d89664a045a41d822146e787bceeefbf648cc228ce354f347b18f2b419e57207", none⟩]
  | .IconvTarget =>
    [⟨"https://ftp.gnu.org/gnu/libiconv/libiconv-1.17.tar.gz",
      "8f74213b56238c85a50a5329f77e06198771e70dd9a739779f4c02f65d971313", none⟩]
  | .IntlTarget =>
    [⟨"https://ftp.gnu.org/gnu/gettext/gettext-0.21.tar.xz",
      "d20fcbb537e02dcf1383197ba05bd0734ef7bf5db06bdb241eb69b7d16b73192", none⟩]
  | .JpegTurboTarget =>
    [⟨"https://github.com/libjpeg-turbo/libjpeg-turbo/releases/download/3.1.0/libjpeg-turbo-3.1.0.tar.gz",
      "9564c72b1dfd1d6fe6274c5f95a8d989b59854575d4bbee44ade7bc17aa9bc93", none⟩]
  | .OpusFileTarget => [modelledSourceSpec "opusfile"]
  | .TiffTarget =>
    [⟨"https://download.osgeo.org/libtiff/tiff-4.3.0.tar.gz",
      "0e46e5acb087ce7d1ac53cf4f56a09b221537fc86dfc5daaad1c2e89e1b37ac8",
      some "tiff-remove-useless"⟩]
  | .WxWidgetsTarget =>
    [⟨"https://github.com/wxWidgets/wxWidgets/releases/download/v3.1.5/wxWidgets-3.1.5.tar.bz2",
      "d7b3666de33aa5c10ea41bb9405c40326e1aeb74ee725bb88f90f1d50270a224",
      some "wxwidgets-library-suffix"⟩]
  | .AutoconfTarget =>
    [⟨"https://ftp.gnu.org/gnu/autoconf/autoconf-2.72.tar.xz",
      "ba885c1319578d6c94d46e9b0dceb4014caafe2490e437a0dbca3f270a223f5a", none⟩]
  | .AutomakeTarget =>
    [⟨"https://ftp.gnu.org/gnu/automake/automake-1.16.5.tar.xz",
      "f01d58cd6d9d77fbdca9eb4bbd5ead1988228fdb73d6f7a201f5f8d6b118b469", none⟩]
  | .BisonTarget => [modelledSourceSpec "bison"]
  | .Bzip3Target =>
    [⟨"https://github.com/kspalaiologos/bzip3/releases/download/1.5.1/bzip3-1.5.1.tar.xz",
      "53b844f9d9fb1d75faa4d3a9d9026017caaf50bb200b320d1685c6506b8f3b37", none⟩]
  | .FFmpegTarget =>
    [⟨"https://ffmpeg.org/releases/ffmpeg-7.1.tar.xz",
      "40973d44970dbc83ef302b0609f2e74982be2d85916dd2ee7472d30678a7abe6", none⟩]
  | .GraphvizTarget => [modelledSourceSpec "graphviz"]
  | .LuaTarget =>
    [⟨"https://www.lua.org/ftp/lua-5.4.8.tar.gz",
      "4f18ddae154e793e46eeab727c59ef1c0c0c2b744e7b94219710d76f530629ae", none⟩]
  | .M4Target =>
    [⟨"https://ftp.gnu.org/gnu/m4/m4-1.4.19.tar.xz",
      "63aede5c6d33b6d9b13511cd0be2cac046f2e70fd0a07aa9573a04a82783af96", none⟩]
  | .P7ZipTarget =>
    [⟨"https://github.com/p7zip-project/p7zip/archive/refs/tags/v17.04.tar.gz",
      "ea029a2e21d2d6ad0a156f6679bd66836204aa78148a4c5e498fe682e77127ef", none⟩]
  | .PbzxTarget =>
    [⟨"https://github.com/nrosenstein-stuff/pbzx/archive/refs/tags/v1.0.2.tar.gz",
      "33db3cf9dc70ae704e1bbfba52c984f4c6dbfd0cc4449fa16408910e22b4fd90",
      some "pbzx-xar-content"⟩]
  | .Radare2Target =>
    [⟨"https://github.com/radareorg/radare2/releases/download/5.9.8/radare2-5.9.8.tar.xz",
      "de061db6089cc1321ba9062b8aa9a0adaaa7a4d25128aab37a2a44e71a939829", none⟩]
  | .RizinTarget =>
    [⟨"https://github.com/rizinorg/rizin/releases/download/v0.8.1/rizin-src-v0.8.1.tar.xz",
      "ef2b1e6525d7dc36ac43525b956749c1cca07bf17c1fed8b66402d82010a4ec2", none⟩]
  | .SevenZipTarget =>
    [⟨"https://7-zip.org/a/7z2409-src.tar.xz",
      "49c05169f49572c1128453579af1632a952409ced028259381dac30726b6133a", none⟩]
  | .TimemoryTarget => [modelledSourceSpec "timemory"]
  | .UnrarTarget =>
    [⟨"https://www.rarlab.com/rar/unrarsrc-6.2.12.tar.gz",
      "a008b5f949bca9bb4ffa1bebbfc8b3c14b89df10a10354809b845232d5f582e5", none⟩]
  | .XdeltaTarget =>
    [⟨"https://github.com/jmacd/xdelta/archive/refs/tags/v3.1.0.tar.gz",
      "7515cf5378fca287a57f4e2fee1094aabc79569cfe60d91e06021a8fd7bae29d", none⟩]
  | .XzTarget =>
    [⟨"https://github.com/tukaani-project/xz/releases/download/v5.6.3/xz-5.6.3.tar.xz",
      "db0590629b6f0fa36e74aea5f9731dc6f8df068ce7b7bafa45301832a5eebc3a", none⟩]
  | .ZipTarget =>
    [⟨"https://downloads.sourceforge.net/project/infozip/Zip%203.x%20%28latest%29/3.0/zip30.tar.gz",
      "f0e8bb1f9b7eb0b01285495a2699df3a4b766784c1765a8f1aeedf63c0806369",
      some "zip-fix-misc"⟩]

/-- A character of a lower-case hexadecimal digest. -/
def isHexChar (c : Char) : Bool :=
  (48 ≤ c.toNat && c.toNat ≤ 57) || (97 ≤ c.toNat && c.toNat ≤ 102)

/-- A 64-character hexadecimal SHA-256 digest. -/
def sha256Shape (digest : String) : Bool :=
  digest.length == 64 && digest.data.all isHexChar

/-! ## `targets()` (`target/__init__.py`) -/

/-- One element of the tuple returned by `targets()`: the instantiated class,
whether it appears in the `# Libraries` group (before `# Tools`), and the
package name the instance is constructed with (every call in `targets()` uses
the constructor's default name). -/
structure TargetEntry where
  cls : TargetClass
  isLibrary : Bool
  pkgName : String
deriving DecidableEq

/-- Modelled from the spec: the default package names of the four target
classes missing from src.  The spec's data model gives each recipe "a package
identifier (name)"; every in-src class derives its default name from the class
name, and the same convention is applied here. -/
def modelledPkgName : TargetClass → String
  | .OpusFileTarget => "opusfile"
  | .BisonTarget => "bison"
  | .GraphvizTarget => "graphviz"
  | .TimemoryTarget => "timemory"
  | _ => ""

/-- The tuple returned by `targets()`, in source order. -/
def targetsReturn : List TargetEntry :=
  [⟨.BrotliTarget, true, "brotli"⟩,
   ⟨.Bzip2Target, true, "bzip2"⟩,
   ⟨.ExpatTarget, true, "expat"⟩,
   ⟨.FfiTarget, true, "ffi"⟩,
   ⟨.FreeImageTarget, true, "freeimage"⟩,
   ⟨.GettextTarget, true, "gettext"⟩,
   ⟨.HighwayTarget, true, "highway"⟩,
   ⟨.IconvTarget, true, "iconv"⟩,
   ⟨.IntlTarget, true, "intl"⟩,
   ⟨.JpegTurboTarget, true, "jpeg-turbo"⟩,
   ⟨.OpusFileTarget, true, modelledPkgName .OpusFileTarget⟩,
   ⟨.TiffTarget, true, "tiff"⟩,
   ⟨.WxWidgetsTarget, true, "wxwidgets"⟩,
   ⟨.AutoconfTarget, false, "autoconf"⟩,
   ⟨.AutomakeTarget, false, "automake"⟩,
   ⟨.BisonTarget, false, modelledPkgName .BisonTarget⟩,
   ⟨.Bzip3Target, false, "bzip3"⟩,
   ⟨.FFmpegTarget, false, "ffmpeg"⟩,
   ⟨.GraphvizTarget, false, modelledPkgName .GraphvizTarget⟩,
   ⟨.LuaTarget, false, "lua"⟩,
   ⟨.M4Target, false, "m4"⟩,
   ⟨.P7ZipTarget, false, "p7zip"⟩,
   ⟨.PbzxTarget, false, "pbzx"⟩,
   ⟨.Radare2Target, false, "radare2"⟩,
   ⟨.RizinTarget, false, "rizin"⟩,
   ⟨.SevenZipTarget, false, "7zip"⟩,
   ⟨.TimemoryTarget, false, modelledPkgName .TimemoryTarget⟩,
   ⟨.UnrarTarget, false, "unrar"⟩,
   ⟨.XdeltaTarget, false, "xdelta"⟩,
   ⟨.XzTarget, false, "xz"⟩,
   ⟨.ZipTarget, false, "zip"⟩]

/-! ## Build state and hook model

The recipes run against an externally supplied `BuildState` (from
`aedi.state`).  Reads and writes of `state.options` / `state.environment` are
modelled directly; every other effect — `super()` calls into the host base
classes, host helpers (`download_source`, `install`, `copy_to_bin`,
`update_text_file`, `write_pc_file`, `make_platform_header`), subprocesses and
file-system operations — is recorded as a `HostAction` appended to the state's
trace.  `fsGlob` and `exitCodes` are the environment's responses to
`glob.iglob` and to `subprocess.run` exit status. -/

inductive HostAction where
  | download (url checksum : String) (patches : Option String)
  | superCall (method : String)
  | unlink (path : String)
  | rename (src dst : String)
  | run (cmd : List String) (cwd : String) (check : Bool)
  | installCall
  | copyToBin (src dst : Option String)
  | updateTextFile (path : String)
  | makedirs (path : String)
  | copyFile (src dst : String)
  | writePcFile (version libs : String)
  | makePlatformHeader (header : String)
deriving DecidableEq

structure BuildState where
  sourceFiles : List String
  options : List (String × Option String)
  environment : List (String × String)
  installPath : String
  buildPath : String
  architecture : String
  fsGlob : String → List String
  exitCodes : List String → Nat
  trace : List HostAction

/-- The attributes stored on the recipe object itself (set in `__init__`):
`self.name`, `self.src_root`, `self.multi_platform`, `self.configure_prefix`.
(`self.options` of `SingleExeCTarget` recipes is also set only in `__init__`
and is never touched by any hook.) -/
structure TargetAttrs where
  name : String
  src_root : String
  multi_platform : Bool
  configure_prefix : Bool
deriving DecidableEq

/-- Result of running a hook: normal return or a raised exception.  Python
exceptions do not roll anything back, so both constructors carry the recipe
attributes and the build state as they are at that point. -/
inductive HookResult where
  | ok (a : TargetAttrs) (s : BuildState)
  | err (e : String) (a : TargetAttrs) (s : BuildState)

def HookResult.attrs : HookResult → TargetAttrs
  | .ok a _ => a
  | .err _ a _ => a

def HookResult.state : HookResult → BuildState
  | .ok _ s => s
  | .err _ _ s => s

def HookResult.isOk : HookResult → Bool
  | .ok _ _ => true
  | .err _ _ _ => false

def Hook : Type := TargetAttrs → BuildState → HookResult

/-- Python dict assignment on an association list: replace the first binding of
the key, or append a new one. -/
def setAssoc (k : String) (v : Option String) :
    List (String × Option String) → List (String × Option String)
  | [] => [(k, v)]
  | (k', v') :: rest => if k' == k then (k, v) :: rest else (k', v') :: setAssoc k v rest

def setAssocS (k v : String) : List (String × String) → List (String × String)
  | [] => [(k, v)]
  | (k', v') :: rest => if k' == k then (k, v) :: rest else (k', v') :: setAssocS k v rest

def addAction (s : BuildState) (act : HostAction) : BuildState :=
  { s with trace := s.trace ++ [act] }

def setOpt (s : BuildState) (k : String) (v : Option String) : BuildState :=
  { s with options := setAssoc k v s.options }

def lookupOpt (s : BuildState) (k : String) : Option (Option String) :=
  s.options.lookup k

def setEnv (s : BuildState) (k v : String) : BuildState :=
  { s with environment := setAssocS k v s.environment }

def lookupEnv (s : BuildState) (k : String) : Option String :=
  s.environment.lookup k

/-- `state.has_source_file(path)`. -/
def hasSourceFile (s : BuildState) (path : String) : Bool :=
  s.sourceFiles.contains path

/-- Every in-src `prepare_source` body is a single `state.download_source`
call; the per-target call list is `prepareSourceCalls`. -/
def prepare_source_hook (t : TargetClass) : Hook := fun a s =>
  .ok a ((prepareSourceCalls t).foldl
    (fun st c => addAction st (.download c.url c.checksum c.patches)) s)

/-! ### `detect` hooks (pure reads of the build state) -/

def Bzip2Target.detect (s : BuildState) : Bool := hasSourceFile s "bzlib.h"

def FfiTarget.detect (s : BuildState) : Bool := hasSourceFile s "libffi.pc.in"

/-- `FreeImageTarget.HEADER_FILE`. -/
def FreeImageTarget.HEADER_FILE : String := "Source/FreeImage.h"

def FreeImageTarget.detect (s : BuildState) : Bool :=
  hasSourceFile s FreeImageTarget.HEADER_FILE

def GettextTarget.detect (s : BuildState) : Bool := hasSourceFile s "gettext-runtime"

def IconvTarget.detect (s : BuildState) : Bool := hasSourceFile s "include/iconv.h.in"

def FFmpegTarget.detect (s : BuildState) : Bool := hasSourceFile s "doc/ffmpeg.txt"

def LuaTarget.detect (s : BuildState) : Bool := hasSourceFile s "src/lua.h"

def P7ZipTarget.detect (s : BuildState) : Bool :=
  hasSourceFile s "CPP/7zip/CMAKE/CMakeLists.txt" &&
    hasSourceFile s "C/fast-lzma2/fast-lzma2.h"

def PbzxTarget.detect (s : BuildState) : Bool := hasSourceFile s "pbzx.c"

def Radare2Target.detect (s : BuildState) : Bool := hasSourceFile s "man/radare2.1"

def RizinTarget.detect (s : BuildState) : Bool := hasSourceFile s "binrz/man/rizin.1"

def SevenZipTarget.detect (s : BuildState) : Bool :=
  hasSourceFile s "CPP/7zip/cmpl_mac_arm64.mak"

def UnrarTarget.detect (s : BuildState) : Bool := hasSourceFile s "rar.hpp"

def XdeltaTarget.detect (s : BuildState) : Bool := hasSourceFile s "xdelta3/xdelta3.h"

def ZipTarget.detect (s : BuildState) : Bool := hasSourceFile s "zip.h"

/-- The `detect` override each class resolves to, when defined in this
repository (`IntlTarget` inherits `GettextTarget.detect`); `none` when `detect`
comes from the external base classes. -/
def detectOf : TargetClass → Option (BuildState → Bool)
  | .Bzip2Target => some Bzip2Target.detect
  | .FfiTarget => some FfiTarget.detect
  | .FreeImageTarget => some FreeImageTarget.detect
  | .GettextTarget => some GettextTarget.detect
  | .IconvTarget => some IconvTarget.detect
  | .IntlTarget => some GettextTarget.detect
  | .FFmpegTarget => some FFmpegTarget.detect
  | .LuaTarget => some LuaTarget.detect
  | .P7ZipTarget => some P7ZipTarget.detect
  | .PbzxTarget => some PbzxTarget.detect
  | .Radare2Target => some Radare2Target.detect
  | .RizinTarget => some RizinTarget.detect
  | .SevenZipTarget => some SevenZipTarget.detect
  | .UnrarTarget => some UnrarTarget.detect
  | .XdeltaTarget => some XdeltaTarget.detect
  | .ZipTarget => some ZipTarget.detect
  | _ => none

/-- The marker files each in-repository `detect` tests with
`state.has_source_file`. -/
def markerFilesOf : TargetClass → Option (List String)
  | .Bzip2Target => some ["bzlib.h"]
  | .FfiTarget => some ["libffi.pc.in"]
  | .FreeImageTarget => some [FreeImageTarget.HEADER_FILE]
  | .GettextTarget => some ["gettext-runtime"]
  | .IconvTarget => some ["include/iconv.h.in"]
  | .IntlTarget => some ["gettext-runtime"]
  | .FFmpegTarget => some ["doc/ffmpeg.txt"]
  | .LuaTarget => some ["src/lua.h"]
  | .P7ZipTarget => some ["CPP/7zip/CMAKE/CMakeLists.txt", "C/fast-lzma2/fast-lzma2.h"]
  | .PbzxTarget => some ["pbzx.c"]
  | .Radare2Target => some ["man/radare2.1"]
  | .RizinTarget => some ["binrz/man/rizin.1"]
  | .SevenZipTarget => some ["CPP/7zip/cmpl_mac_arm64.mak"]
  | .UnrarTarget => some ["rar.hpp"]
  | .XdeltaTarget => some ["xdelta3/xdelta3.h"]
  | .ZipTarget => some ["zip.h"]
  | _ => none

/-! ### `configure`, `build` and `post_build` hooks (library.py) -/

def BrotliTarget.post_build : Hook := fun a s =>
  let s := addAction s (.superCall "CMakeStaticDependencyTarget.post_build")
  let dylibs := s.fsGlob (s.installPath ++ "/lib/*.dylib")
  let s := dylibs.foldl (fun st d => addAction st (.unlink d)) s
  let archives := s.fsGlob (s.installPath ++ "/lib/*-static.a")
  let s := archives.foldl
    (fun st ar => addAction st (.rename ar (BrotliTarget.archiveNewName ar))) s
  .ok a s

def Bzip2Target.configure : Hook := fun a s =>
  let s := setOpt s "ENABLE_APP" (some "NO")
  let s := setOpt s "ENABLE_SHARED_LIB" (some "NO")
  let s := setOpt s "ENABLE_STATIC_LIB" (some "YES")
  let s := setOpt s "ENABLE_TESTS" (some "NO")
  .ok a (addAction s (.superCall "CMakeStaticDependencyTarget.configure"))

def Bzip2Target.post_build : Hook := fun a s =>
  let s := addAction s (.superCall "CMakeStaticDependencyTarget.post_build")
  .ok a (addAction s
    (.rename (s.installPath ++ "/lib/libbz2_static.a") (s.installPath ++ "/lib/libbz2.a")))

def ExpatTarget.configure : Hook := fun a s =>
  let s := setOpt s "EXPAT_BUILD_EXAMPLES" (some "NO")
  let s := setOpt s "EXPAT_BUILD_TESTS" (some "NO")
  let s := setOpt s "EXPAT_BUILD_TOOLS" (some "NO")
  .ok a (addAction s (.superCall "CMakeStaticDependencyTarget.configure"))

def FfiTarget.post_build : Hook := fun a s =>
  let s := addAction s (.superCall "ConfigureMakeStaticDependencyTarget.post_build")
  let s := addAction s (.makePlatformHeader "ffi.h")
  .ok a (addAction s (.makePlatformHeader "ffitarget.h"))

def FreeImageTarget.configure : Hook := fun a s =>
  let s := addAction s (.superCall "MakeTarget.configure")
  let common_flags := " -O3 -fPIC -fexceptions -fvisibility=hidden"
  match lookupEnv s "CFLAGS" with
  | none => .err "KeyError: CFLAGS" a s
  | some cf =>
    let s := setEnv s "CFLAGS" (cf ++ common_flags ++ " -std=gnu89 -Wno-implicit-function-declaration")
    match lookupEnv s "CXXFLAGS" with
    | none => .err "KeyError: CXXFLAGS" a s
    | some cxf =>
      let s := setEnv s "CXXFLAGS" (cxf ++ common_flags ++ " -Wno-ctor-dtor-privacy")
      let s := setOpt s "-f" none
      let s := setOpt s "Makefile.gnu" none
      .ok a (setOpt s "libfreeimage.a" none)

def FreeImageTarget.post_build : Hook := fun a s =>
  let include_path := s.installPath ++ "/include"
  let s := addAction s (.makedirs include_path)
  let s := addAction s (.copyFile (s.buildPath ++ "/" ++ FreeImageTarget.HEADER_FILE) include_path)
  let lib_path := s.installPath ++ "/lib"
  let s := addAction s (.makedirs lib_path)
  let s := addAction s (.copyFile (s.buildPath ++ "/libfreeimage.a") lib_path)
  .ok a (addAction s (.writePcFile "3.18.0" "-lfreeimage -lc++"))

def GettextTarget.configure : Hook := fun a s =>
  let s := setOpt s "--enable-csharp" (some "no")
  let s := setOpt s "--enable-java" (some "no")
  let s := setOpt s "--enable-libasprintf" (some "no")
  .ok a (addAction s (.superCall "ConfigureMakeStaticDependencyTarget.configure"))

def HighwayTarget.configure : Hook := fun a s =>
  let s := setOpt s "HWY_ENABLE_CONTRIB" (some "NO")
  let s := setOpt s "HWY_ENABLE_EXAMPLES" (some "NO")
  let s := setOpt s "HWY_ENABLE_TESTS" (some "NO")
  .ok a (addAction s (.superCall "CMakeStaticDependencyTarget.configure"))

def IconvTarget.configure : Hook := fun a s =>
  let s := setOpt s "--enable-extra-encodings" (some "yes")
  .ok a (addAction s (.superCall "ConfigureMakeStaticDependencyTarget.configure"))

/-- `IntlTarget.configure` sets `self.src_root = 'gettext-runtime'` on the
recipe object, then `super().configure(state)` resolves to
`GettextTarget.configure` (repository code). -/
def IntlTarget.configure : Hook := fun a s =>
  let s := setOpt s "--localedir" (some "/usr/local/share/locale")
  GettextTarget.configure { a with src_root := "gettext-runtime" } s

/-- `IntlTarget.build` appends `'/intl'` to `self.src_root`; `super().build`
resolves to the external base classes. -/
def IntlTarget.build : Hook := fun a s =>
  let a := { a with src_root := a.src_root ++ "/intl" }
  .ok a (addAction s (.superCall "ConfigureMakeStaticDependencyTarget.build"))

def IntlTarget.post_build : Hook := fun a s =>
  let s := setOpt s "install-exec-am" none
  let s := setOpt s "install-nodist_includeHEADERS" none
  let s := { s with buildPath := s.buildPath ++ "/" ++ a.src_root }
  .ok a (addAction s .installCall)

def JpegTurboTarget.configure : Hook := fun a s =>
  let s := setOpt s "ENABLE_SHARED" (some "NO")
  .ok a (addAction s (.superCall "CMakeStaticDependencyTarget.configure"))

def TiffTarget.configure : Hook := fun a s =>
  let s := setOpt s "cxx" (some "NO")
  let s := setOpt s "lzma" (some "YES")
  .ok a (addAction s (.superCall "CMakeStaticDependencyTarget.configure"))

def WxWidgetsTarget.configure : Hook := fun a s =>
  let s := setOpt s "wxBUILD_SHARED" (some "NO")
  let s := setOpt s "wxUSE_LIBLZMA" (some "YES")
  let s := setOpt s "wxUSE_LIBSDL" (some "NO")
  let s := setOpt s "wxUSE_LIBJPEG" (some "sys")
  let s := setOpt s "wxUSE_LIBPNG" (some "sys")
  let s := setOpt s "wxUSE_LIBTIFF" (some "sys")
  .ok a (addAction s (.superCall "CMakeStaticDependencyTarget.configure"))

/-- `WxWidgetsTarget.post_build`: the text patches applied through the host's
`update_text_file` are `WxWidgetsTarget.patch_setup_h` and
`WxWidgetsTarget.patch_wx_config`. -/
def WxWidgetsTarget.post_build : Hook := fun a s =>
  let s := addAction s (.superCall "CMakeStaticDependencyTarget.post_build")
  let s := addAction s
    (.updateTextFile (s.installPath ++ "/lib/wx/include/osx_cocoa-unicode-static-3.1/wx/setup.h"))
  .ok a (addAction s (.updateTextFile (s.installPath ++ "/bin/wx-config")))

/-! ### `configure`, `build` and `post_build` hooks (tool.py) -/

def Bzip3Target.configure : Hook := fun a s =>
  let s := setOpt s "CMAKE_SKIP_INSTALL_RPATH" (some "YES")
  .ok a (addAction s (.superCall "CMakeStaticDependencyTarget.configure"))

def FFmpegTarget.configure : Hook := fun a s =>
  let s := setOpt s "--arch" (some s.architecture)
  .ok a (addAction s (.superCall "ConfigureMakeDependencyTarget.configure"))

def LuaTarget.post_build : Hook := fun a s =>
  let s := setOpt s "install" none
  let s := setOpt s "INSTALL_TOP" (some s.installPath)
  .ok a (addAction s .installCall)

def P7ZipTarget.post_build : Hook := fun a s =>
  .ok a (addAction s (.copyToBin (some "7za") none))

def Radare2Target.configure : Hook := fun a s =>
  let s := setOpt s "blob" (some "true")
  let s := setOpt s "enable_tests" (some "false")
  let s := setOpt s "enable_r2r" (some "false")
  let s := setOpt s "local" (some "true")
  let s := setOpt s "r2_gittip" (some "ea7f0356519884715cf1d5fba16042bac72b2df5")
  let s := setOpt s "r2_version_commit" (some "1")
  let s := setOpt s "static_runtime" (some "true")
  .ok a (addAction s (.superCall "MesonTarget.configure"))

def Radare2Target.post_build : Hook := fun a s =>
  let s := addAction s (.superCall "MesonTarget.post_build")
  let bin_path := s.installPath ++ "/bin"
  let s := addAction s (.unlink (bin_path ++ "/r2blob.static"))
  .ok a (addAction s (.rename (bin_path ++ "/r2blob") (bin_path ++ "/radare2")))

def RizinTarget.configure : Hook := fun a s =>
  let s := setOpt s "blob" (some "true")
  let s := setOpt s "enable_tests" (some "false")
  let s := setOpt s "enable_rz_test" (some "false")
  let s := setOpt s "local" (some "enabled")
  let s := setOpt s "portable" (some "true")
  .ok a (addAction s (.superCall "MesonTarget.configure"))

/-- `SevenZipTarget._arch_suffix`. -/
def SevenZipTarget.arch_suffix (s : BuildState) : String :=
  if s.architecture == "x86_64" then "x64" else s.architecture

def SevenZipTarget.build : Hook := fun a s =>
  let mak_suffix := SevenZipTarget.arch_suffix s
  let s := setOpt s "-f" none
  let s := setOpt s ("../../cmpl_mac_" ++ mak_suffix ++ ".mak") none
  match lookupEnv s "CFLAGS" with
  | none => .err "KeyError: CFLAGS" a s
  | some cf =>
    let s := setOpt s "CFLAGS_BASE_LIST" (some (cf ++ " -Wno-switch-default -c"))
    match lookupEnv s "LDFLAGS" with
    | none => .err "KeyError: LDFLAGS" a s
    | some ld =>
      let s := setOpt s "LDFLAGS_STATIC_2" (some ld)
      .ok a (addAction s (.superCall "MakeTarget.build"))

def SevenZipTarget.post_build : Hook := fun a s =>
  let build_suffix := SevenZipTarget.arch_suffix s
  .ok a (addAction s
    (.copyToBin (some (a.src_root ++ "/b/m_" ++ build_suffix ++ "/7zz")) (some "7zz")))

def UnrarTarget.configure : Hook := fun a s =>
  let s := setOpt s "CXXFLAGS"
    (some "-std=c++11 -O2 -Wno-logical-op-parentheses -Wno-switch -Wno-dangling-else")
  .ok a (addAction s (.superCall "MakeTarget.configure"))

def UnrarTarget.post_build : Hook := fun a s =>
  .ok a (addAction s (.copyToBin none none))

/-- The command run by `XdeltaTarget.configure` with `check=True`. -/
def XdeltaTarget.autoreconfCmd : List String := ["autoreconf", "--install"]

/-- `XdeltaTarget.configure`: explicit `base.MakeTarget.configure(self, state)`
(external), then `subprocess.run(('autoreconf', '--install'), check=True,
cwd=state.build_path / self.src_root, env=state.environment)` — `check=True`
raises `CalledProcessError` on a non-zero exit status, skipping the rest —
then `super().configure(state)` (external). -/
def XdeltaTarget.configure : Hook := fun a s =>
  let s := addAction s (.superCall "MakeTarget.configure")
  let work_path := s.buildPath ++ "/" ++ a.src_root
  let s := addAction s (.run XdeltaTarget.autoreconfCmd work_path true)
  if s.exitCodes XdeltaTarget.autoreconfCmd = 0 then
    .ok a (addAction s (.superCall "ConfigureMakeDependencyTarget.configure"))
  else
    .err "CalledProcessError" a s

/-- `XzTarget.configure`: `options['BUILD_TESTING'] += 'NO'` and
`options['CMAKE_EXE_LINKER_FLAGS'] += '-framework CoreFoundation -liconv'`.
Python `d[k] += v` looks the key up first (raising `KeyError` when it is
absent; `+=` on a `None` value would raise `TypeError`), then stores the
concatenation back. -/
def XzTarget.configure : Hook := fun a s =>
  match lookupOpt s "BUILD_TESTING" with
  | none => .err "KeyError: BUILD_TESTING" a s
  | some none => .err "TypeError: BUILD_TESTING" a s
  | some (some v) =>
    let s := setOpt s "BUILD_TESTING" (some (v ++ "NO"))
    match lookupOpt s "CMAKE_EXE_LINKER_FLAGS" with
    | none => .err "KeyError: CMAKE_EXE_LINKER_FLAGS" a s
    | some none => .err "TypeError: CMAKE_EXE_LINKER_FLAGS" a s
    | some (some w) =>
      let s := setOpt s "CMAKE_EXE_LINKER_FLAGS" (some (w ++ "-framework CoreFoundation -liconv"))
      .ok a (addAction s (.superCall "CMakeStaticDependencyTarget.configure"))

/-- A hook leaves the attributes stored on the recipe object unchanged (both on
normal return and on a raised exception); all its mutation is on the build
state. -/
def PreservesAttrs (h : Hook) : Prop :=
  ∀ a s, (h a s).attrs = a

/-! ### Concrete sample data used by witnesses and counterexamples -/

def sampleAttrs : TargetAttrs := ⟨"intl", "gettext", true, true⟩

/-- `XdeltaTarget.__init__` sets `self.src_root = 'xdelta3'`. -/
def xdeltaAttrs : TargetAttrs := ⟨"xdelta", "xdelta3", true, true⟩

def sampleState : BuildState :=
  ⟨[], [], [], "/install", "/build", "arm64", fun _ => [], fun _ => 0, []⟩

def sampleStateFail : BuildState :=
  ⟨[], [], [], "/install", "/build", "arm64", fun _ => [], fun _ => 1, []⟩

def sampleStateXz : BuildState :=
  ⟨[], [("BUILD_TESTING", some "ON;"), ("CMAKE_EXE_LINKER_FLAGS", some "-lz ")], [],
   "/install", "/build", "arm64", fun _ => [], fun _ => 0, []⟩

/-! ## Lemmas about the `str.replace` scanner -/

theorem isPrefixOf_append_self (p v : List Char) : p.isPrefixOf (p ++ v) = true := by
  induction p with
  | nil => simp
  | cons c cs ih => simp [List.isPrefixOf, ih]

theorem exists_append_of_isPrefixOf :
    ∀ {p s : List Char}, p.isPrefixOf s = true → ∃ z, p ++ z = s := by
  intro p
  induction p with
  | nil => exact fun {s} _ => ⟨s, rfl⟩
  | cons c cs ih =>
    intro s h
    cases s with
    | nil => simp [List.isPrefixOf] at h
    | cons b bs =>
      simp only [List.isPrefixOf, Bool.and_eq_true, beq_iff_eq] at h
      obtain ⟨z, hz⟩ := ih h.2
      exact ⟨z, by simp [h.1, hz]⟩

theorem pyReplaceAux_nil (pat rep : List Char) (fuel : Nat) :
    pyReplaceAux pat rep fuel [] = [] := by
  cases fuel <;> rfl

theorem countOccAux_nil (pat : List Char) (fuel : Nat) :
    countOccAux pat fuel [] = 0 := by
  cases fuel <;> rfl

theorem pyReplaceAux_fuel (pat rep : List Char) :
    ∀ f₁ f₂ s, s.length ≤ f₁ → s.length ≤ f₂ →
      pyReplaceAux pat rep f₁ s = pyReplaceAux pat rep f₂ s := by
  intro f₁
  induction f₁ with
  | zero =>
    intro f₂ s h₁ _
    have hs : s = [] := List.eq_nil_of_length_eq_zero (Nat.le_zero.mp h₁)
    subst hs
    rw [pyReplaceAux_nil, pyReplaceAux_nil]
  | succ f ih =>
    intro f₂ s h₁ h₂
    cases s with
    | nil => rw [pyReplaceAux_nil, pyReplaceAux_nil]
    | cons c rest =>
      cases f₂ with
      | zero => simp at h₂
      | succ f₂' =>
        simp only [List.length_cons] at h₁ h₂
        simp only [pyReplaceAux]
        have hd := List.length_drop (pat.length - 1) rest
        by_cases hp : pat.isPrefixOf (c :: rest)
        · rw [if_pos hp, if_pos hp,
            ih f₂' (rest.drop (pat.length - 1)) (by omega) (by omega)]
        · rw [if_neg hp, if_neg hp, ih f₂' rest (by omega) (by omega)]

theorem countOccAux_fuel (pat : List Char) :
    ∀ f₁ f₂ s, s.length ≤ f₁ → s.length ≤ f₂ →
      countOccAux pat f₁ s = countOccAux pat f₂ s := by
  intro f₁
  induction f₁ with
  | zero =>
    intro f₂ s h₁ _
    have hs : s = [] := List.eq_nil_of_length_eq_zero (Nat.le_zero.mp h₁)
    subst hs
    rw [countOccAux_nil, countOccAux_nil]
  | succ f ih =>
    intro f₂ s h₁ h₂
    cases s with
    | nil => rw [countOccAux_nil, countOccAux_nil]
    | cons c rest =>
      cases f₂ with
      | zero => simp at h₂
      | succ f₂' =>
        simp only [List.length_cons] at h₁ h₂
        simp only [countOccAux]
        have hd := List.length_drop (pat.length - 1) rest
        by_cases hp : pat.isPrefixOf (c :: rest)
        · rw [if_pos hp, if_pos hp,
            ih f₂' (rest.drop (pat.length - 1)) (by omega) (by omega)]
        · rw [if_neg hp, if_neg hp, ih f₂' rest (by omega) (by omega)]

/-- Each of the `countOccAux`-many replaced occurrences shortens the string by
`pat.length` and adds `rep.length`. -/
theorem pyReplaceAux_length (pat rep : List Char) (hp : pat ≠ []) :
    ∀ fuel s, s.length ≤ fuel →
      (pyReplaceAux pat rep fuel s).length + pat.length * countOccAux pat fuel s =
        s.length + rep.length * countOccAux pat fuel s := by
  intro fuel
  induction fuel with
  | zero =>
    intro s h
    have hs : s = [] := List.eq_nil_of_length_eq_zero (Nat.le_zero.mp h)
    subst hs
    rw [pyReplaceAux_nil, countOccAux_nil]
    simp
  | succ f ih =>
    intro s h
    cases s with
    | nil =>
      rw [pyReplaceAux_nil, countOccAux_nil]
      simp
    | cons c rest =>
      simp only [List.length_cons] at h
      simp only [pyReplaceAux, countOccAux]
      by_cases hpre : pat.isPrefixOf (c :: rest)
      · rw [if_pos hpre, if_pos hpre]
        have hlen : pat.length ≤ rest.length + 1 := by
          obtain ⟨z, hz⟩ := exists_append_of_isPrefixOf hpre
          have := congrArg List.length hz
          simp only [List.length_append, List.length_cons] at this
          omega
        have hpos : 0 < pat.length := List.length_pos.mpr hp
        have hdrop := List.length_drop (pat.length - 1) rest
        have ihd := ih (rest.drop (pat.length - 1)) (by omega)
        simp only [List.length_append, List.length_cons]
        have e₁ : pat.length * (countOccAux pat f (rest.drop (pat.length - 1)) + 1)
            = pat.length * countOccAux pat f (rest.drop (pat.length - 1)) + pat.length := by
          ring
        have e₂ : rep.length * (countOccAux pat f (rest.drop (pat.length - 1)) + 1)
            = rep.length * countOccAux pat f (rest.drop (pat.length - 1)) + rep.length := by
          ring
        rw [e₁, e₂]
        omega
      · rw [if_neg hpre, if_neg hpre]
        have ihd := ih rest (by omega)
        simp only [List.length_cons]
        omega

/-- A string containing `pat` has at least one counted occurrence. -/
theorem countOccAux_pos (pat : List Char) (hp : pat ≠ []) :
    ∀ fuel u v, (u ++ (pat ++ v)).length ≤ fuel →
      1 ≤ countOccAux pat fuel (u ++ (pat ++ v)) := by
  intro fuel
  induction fuel with
  | zero =>
    intro u v h
    have hpos : 0 < pat.length := List.length_pos.mpr hp
    simp only [List.length_append] at h
    omega
  | succ f ih =>
    intro u v h
    cases u with
    | nil =>
      simp only [List.nil_append]
      cases pat with
      | nil => exact absurd rfl hp
      | cons q qs =>
        have hpre : (q :: qs).isPrefixOf (q :: (qs ++ v)) = true :=
          isPrefixOf_append_self (q :: qs) v
        simp only [List.cons_append, countOccAux, List.append_eq]
        rw [if_pos hpre]
        omega
    | cons c u' =>
      simp only [List.cons_append, countOccAux, List.append_eq]
      by_cases hpre : pat.isPrefixOf (c :: (u' ++ (pat ++ v)))
      · rw [if_pos hpre]
        omega
      · rw [if_neg hpre]
        apply ih u' v
        simp only [List.length_append, List.length_cons] at h ⊢
        omega

/-- If a string ends in `pat`, `pat` cannot overlap itself
(`nso`), and the scanner counts exactly one occurrence, then replacing is the
same as rewriting the final `pat` to `rep`. -/
theorem pyReplaceAux_unique_end (pat rep : List Char) (hp : pat ≠ [])
    (nso : ∀ k, 0 < k → k < pat.length → pat.drop k ≠ pat.take (pat.length - k)) :
    ∀ fuel t, (t ++ pat).length ≤ fuel →
      countOccAux pat fuel (t ++ pat) = 1 →
      pyReplaceAux pat rep fuel (t ++ pat) = t ++ rep := by
  intro fuel
  induction fuel with
  | zero =>
    intro t h _
    have hpos : 0 < pat.length := List.length_pos.mpr hp
    simp only [List.length_append] at h
    omega
  | succ f ih =>
    intro t h hc
    cases t with
    | nil =>
      simp only [List.nil_append] at *
      cases pat with
      | nil => exact absurd rfl hp
      | cons q qs =>
        have hpre : (q :: qs).isPrefixOf (q :: qs) = true := by
          have h' := isPrefixOf_append_self (q :: qs) []
          rwa [List.append_nil] at h'
        simp only [pyReplaceAux]
        rw [if_pos hpre]
        have hdrop : qs.drop ((q :: qs).length - 1) = [] := by
          simp [List.drop_length]
        rw [hdrop, pyReplaceAux_nil, List.append_nil]
    | cons c t' =>
      simp only [List.cons_append, List.length_cons, List.length_append] at h hc ⊢
      by_cases hpre : pat.isPrefixOf (c :: (t' ++ pat))
      · exfalso
        obtain ⟨z, hz⟩ := exists_append_of_isPrefixOf hpre
        simp only [countOccAux, List.append_eq] at hc
        rw [if_pos hpre] at hc
        have hzero : countOccAux pat f ((t' ++ pat).drop (pat.length - 1)) = 0 := by
          omega
        have hpos : 0 < pat.length := List.length_pos.mpr hp
        by_cases hcase : pat.length ≤ t'.length + 1
        · -- the match at position 0 is disjoint from the final `pat`,
          -- which therefore survives in the dropped remainder
          have hd : (t' ++ pat).drop (pat.length - 1)
              = t'.drop (pat.length - 1) ++ pat := by
            apply List.drop_append_of_le_length
            omega
          have hone := countOccAux_pos pat hp f (t'.drop (pat.length - 1)) []
          rw [List.append_nil] at hone
          have hlb : (t'.drop (pat.length - 1) ++ pat).length ≤ f := by
            simp only [List.length_append, List.length_drop]
            omega
          have := hone hlb
          rw [hd] at hzero
          omega
        · -- the match at position 0 overlaps the final `pat`: impossible
          have htl : t'.length + 1 < pat.length := by omega
          have h₁ : (pat ++ z).drop (t'.length + 1) = pat := by
            rw [hz]
            exact List.drop_left' (by simp)
          have h₂ : (pat ++ z).drop (t'.length + 1) = pat.drop (t'.length + 1) ++ z :=
            List.drop_append_of_le_length (by omega)
          have h₃ : pat.drop (t'.length + 1) ++ z = pat := by rw [← h₂, h₁]
          have h₄ := @List.take_left' Char (pat.drop (t'.length + 1)) z
            (pat.length - (t'.length + 1))
            (show (pat.drop (t'.length + 1)).length = pat.length - (t'.length + 1) by
              simp [List.length_drop])
          rw [h₃] at h₄
          exact nso (t'.length + 1) (by omega) htl h₄.symm
      · simp only [countOccAux, List.append_eq] at hc
        rw [if_neg hpre] at hc
        simp only [pyReplaceAux, List.append_eq]
        rw [if_neg hpre, ih t' (by simp only [List.length_append]; omega) hc]

/-! ## String-level helpers -/

theorem string_eq_iff_data (s t : String) : s = t ↔ s.data = t.data := by
  constructor
  · exact fun h => congrArg String.data h
  · intro h
    cases s
    cases t
    cases h
    rfl

theorem string_data_append (s t : String) : (s ++ t).data = s.data ++ t.data := by
  cases s
  cases t
  rfl

/-- `'-static.a'` cannot overlap itself: no proper non-empty suffix of it is
one of its prefixes. -/
theorem staticPat_nso :
    ∀ k, 0 < k → k < ("-static.a".data).length →
      List.drop k "-static.a".data ≠
        List.take (("-static.a".data).length - k) "-static.a".data := by
  have h : ∀ k, k < ("-static.a".data).length → (0 < k →
      List.drop k "-static.a".data ≠
        List.take (("-static.a".data).length - k) "-static.a".data) := by
    decide
  exact fun k hk hlt => h k hlt hk


/-! ## Claim theorems -/

/-- C1: Every text line-rewrite function in the recipes
(`BrotliTarget._process_pkg_config`, `Bzip2Target._process_pkg_config`,
`TiffTarget._process_pkg_config`, `Bzip3Target._process_pkg_config`, and
wxWidgets' `patch_setup_h` / `patch_wx_config`) is a deterministic pure
function of its input: for every pcfile path and every input line, two runs on
the same input return the same output line.  Each function is a plain
`String → String` (→ `String`) function of its arguments, so it reads and
modifies no other state by construction. -/
theorem c1_line_rewrites_deterministic :
    ∀ pcfile line o₁ o₂ : String,
      (o₁ = BrotliTarget.process_pkg_config pcfile line →
        o₂ = BrotliTarget.process_pkg_config pcfile line → o₁ = o₂) ∧
      (o₁ = Bzip2Target.process_pkg_config pcfile line →
        o₂ = Bzip2Target.process_pkg_config pcfile line → o₁ = o₂) ∧
      (o₁ = TiffTarget.process_pkg_config pcfile line →
        o₂ = TiffTarget.process_pkg_config pcfile line → o₁ = o₂) ∧
      (o₁ = Bzip3Target.process_pkg_config pcfile line →
        o₂ = Bzip3Target.process_pkg_config pcfile line → o₁ = o₂) ∧
      (o₁ = WxWidgetsTarget.patch_setup_h line →
        o₂ = WxWidgetsTarget.patch_setup_h line → o₁ = o₂) ∧
      (o₁ = WxWidgetsTarget.patch_wx_config line →
        o₂ = WxWidgetsTarget.patch_wx_config line → o₁ = o₂) := by
  intro pcfile line o₁ o₂
  refine ⟨?_, ?_, ?_, ?_, ?_, ?_⟩ <;> exact fun h₁ h₂ => h₁.trans h₂.symm

/-- Witness for C1, at the pcfile `libbrotlicommon.pc` and the line
`'Libs: -R$\x7blibdir\x7d -lbrotli'`; both runs of
`BrotliTarget._process_pkg_config` produce `'Libs: -lbrotli'`. -/
theorem c1_witness : ("Libs: -lbrotli" : String) = "Libs: -lbrotli" :=
  (c1_line_rewrites_deterministic "libbrotlicommon.pc" "Libs: -R$\x7blibdir\x7d -lbrotli"
      "Libs: -lbrotli" "Libs: -lbrotli").1 (by decide) (by decide)

/-- C8 is false for `BrotliTarget._process_pkg_config`: on the line
`'Libs:-R$\x7blib-R$\x7blibdir\x7d dir\x7d '` the first application removes the inner
occurrence of `'-R$\x7blibdir\x7d '` and thereby splices together a new one
(yielding `'Libs:-R$\x7blibdir\x7d '`), so a second application strips it again
(yielding `'Libs:'`): the function is not idempotent. -/
theorem c8_counterexample :
    ¬ (BrotliTarget.process_pkg_config "libbrotlicommon.pc"
          (BrotliTarget.process_pkg_config "libbrotlicommon.pc"
            "Libs:-R$\x7blib-R$\x7blibdir\x7d dir\x7d ")
        = BrotliTarget.process_pkg_config "libbrotlicommon.pc"
            "Libs:-R$\x7blib-R$\x7blibdir\x7d dir\x7d ") := by
  decide

/-- C8 amended: every line-rewrite function in the recipes other than
`BrotliTarget._process_pkg_config` is idempotent — applying the transformation
to an already-transformed line leaves it unchanged (including the empty-string
result for dropped `bindir=` lines and the rewritten Version/Cflags/Libs and
wxINSTALL_PREFIX lines).  Brotli's function is excluded: removing occurrences
of `'-R$\x7blibdir\x7d '` can create a new occurrence (see the counterexample). -/
theorem c8_amended_line_rewrites_idempotent :
    (∀ pcfile line, Bzip2Target.process_pkg_config pcfile
        (Bzip2Target.process_pkg_config pcfile line)
      = Bzip2Target.process_pkg_config pcfile line) ∧
    (∀ pcfile line, Bzip3Target.process_pkg_config pcfile
        (Bzip3Target.process_pkg_config pcfile line)
      = Bzip3Target.process_pkg_config pcfile line) ∧
    (∀ pcfile line, TiffTarget.process_pkg_config pcfile
        (TiffTarget.process_pkg_config pcfile line)
      = TiffTarget.process_pkg_config pcfile line) ∧
    (∀ line, WxWidgetsTarget.patch_setup_h (WxWidgetsTarget.patch_setup_h line)
      = WxWidgetsTarget.patch_setup_h line) ∧
    (∀ line, WxWidgetsTarget.patch_wx_config (WxWidgetsTarget.patch_wx_config line)
      = WxWidgetsTarget.patch_wx_config line) := by
  refine ⟨?_, ?_, ?_, ?_, ?_⟩
  · intro pcfile line
    by_cases h : pyStartswith line "bindir="
    · simp only [Bzip2Target.process_pkg_config, h, if_true]
      decide
    · simp [Bzip2Target.process_pkg_config, h]
  · intro pcfile line
    by_cases h : pyStartswith line "bindir="
    · simp only [Bzip3Target.process_pkg_config, h, if_true]
      decide
    · simp [Bzip3Target.process_pkg_config, h]
  · intro pcfile line
    by_cases h₁ : pyStartswith line "Version:"
    · simp only [TiffTarget.process_pkg_config, h₁, if_true]
      decide
    · by_cases h₂ : pyStartswith line "Cflags:"
      · simp only [TiffTarget.process_pkg_config, h₁, h₂, if_true]
        decide
      · by_cases h₃ : pyStartswith line "Libs:"
        · simp only [TiffTarget.process_pkg_config, h₁, h₂, h₃, if_true]
          decide
        · simp [TiffTarget.process_pkg_config, h₁, h₂, h₃]
  · intro line
    by_cases h : pyStartswith line "#define wxINSTALL_PREFIX "
    · simp only [WxWidgetsTarget.patch_setup_h, h, if_true]
      decide
    · simp [WxWidgetsTarget.patch_setup_h, h]
  · intro line
    by_cases h₁ : pyStartswith line "prefix=$\x7binput_option_prefix-$\x7bthis_prefix:-"
    · simp only [WxWidgetsTarget.patch_wx_config, h₁, if_true]
      decide
    · by_cases h₂ : pyStartswith line "is_cross() "
      · simp only [WxWidgetsTarget.patch_wx_config, h₁, h₂, if_true]
        decide
      · by_cases h₃ : pyStartswith line "is_cross && target="
        · simp only [WxWidgetsTarget.patch_wx_config, h₁, h₂, h₃, if_true]
          decide
        · by_cases h₄ : pyStartswith line "[ -z \"$output_option_cc\" "
          · simp only [WxWidgetsTarget.patch_wx_config, h₁, h₂, h₃, h₄, if_true]
            decide
          · by_cases h₅ : pyStartswith line "[ -z \"$output_option_cxx\" "
            · simp only [WxWidgetsTarget.patch_wx_config, h₁, h₂, h₃, h₄, h₅, if_true]
              decide
            · by_cases h₆ : pyStartswith line "[ -z \"$output_option_ld\" "
              · simp only [WxWidgetsTarget.patch_wx_config, h₁, h₂, h₃, h₄, h₅, h₆, if_true]
                decide
              · by_cases h₇ : pyStartswith line "ldlibs_gl="
                · simp only [WxWidgetsTarget.patch_wx_config, h₁, h₂, h₃, h₄, h₅, h₆, h₇,
                    if_true]
                  decide
                · simp [WxWidgetsTarget.patch_wx_config, h₁, h₂, h₃, h₄, h₅, h₆, h₇]

/-- C10: In `BrotliTarget.post_build`, the new name of each matched static
archive is the path string with every occurrence of the substring
`'-static.a'` replaced by `'.a'`, not only the trailing suffix — each of the
`staticSuffixCount`-many occurrences shortens the name by 9 characters and
contributes 2 — and for a path ending in `'-static.a'` the result equals plain
suffix replacement exactly when `'-static.a'` occurs exactly once (necessarily
at the end).  The last two conjuncts evaluate the rename on a path with a
single trailing occurrence and on one with two occurrences. -/
theorem c10_brotli_archive_rename :
    (∀ archive : String,
      (BrotliTarget.archiveNewName archive).length + 9 * staticSuffixCount archive
        = archive.length + 2 * staticSuffixCount archive) ∧
    (∀ stem : String,
      BrotliTarget.archiveNewName (stem ++ "-static.a") = stem ++ ".a"
        ↔ staticSuffixCount (stem ++ "-static.a") = 1) ∧
    BrotliTarget.archiveNewName "lib/libbrotlicommon-static.a" = "lib/libbrotlicommon.a" ∧
    BrotliTarget.archiveNewName "lib/lib-static.a-static.a" = "lib/lib.a.a" := by
  refine ⟨?_, ?_, by decide, by decide⟩
  · intro archive
    have h := pyReplaceAux_length "-static.a".data ".a".data (by decide)
      archive.data.length archive.data (le_refl _)
    have hp : ("-static.a".data).length = 9 := by decide
    have hr : (".a".data).length = 2 := by decide
    rw [hp, hr] at h
    exact h
  · intro stem
    have hdata : (stem ++ "-static.a").data = stem.data ++ "-static.a".data :=
      string_data_append stem "-static.a"
    constructor
    · intro heq
      have h := pyReplaceAux_length "-static.a".data ".a".data (by decide)
        (stem.data ++ "-static.a".data).length (stem.data ++ "-static.a".data) (le_refl _)
      have hd := congrArg String.data heq
      have hd' : pyReplaceL "-static.a".data ".a".data (stem.data ++ "-static.a".data)
          = stem.data ++ ".a".data := by
        have e₁ : (BrotliTarget.archiveNewName (stem ++ "-static.a")).data
            = pyReplaceL "-static.a".data ".a".data (stem.data ++ "-static.a".data) := by
          show pyReplaceL "-static.a".data ".a".data (stem ++ "-static.a").data
            = pyReplaceL "-static.a".data ".a".data (stem.data ++ "-static.a".data)
          rw [hdata]
        have e₂ : (stem ++ ".a").data = stem.data ++ ".a".data := string_data_append stem ".a"
        rw [← e₁, ← e₂]
        exact hd
      have hlen := congrArg List.length hd'
      show countOccAux "-static.a".data (stem.data ++ "-static.a".data).length
        (stem.data ++ "-static.a".data) = 1
      have hp : ("-static.a".data).length = 9 := by decide
      have hr : (".a".data).length = 2 := by decide
      have hpl : pyReplaceL "-static.a".data ".a".data (stem.data ++ "-static.a".data)
          = pyReplaceAux "-static.a".data ".a".data
            (stem.data ++ "-static.a".data).length (stem.data ++ "-static.a".data) := rfl
      rw [hpl] at hlen
      simp only [List.length_append, hp, hr] at h hlen ⊢
      omega
    · intro hc
      rw [string_eq_iff_data]
      show pyReplaceL "-static.a".data ".a".data (stem ++ "-static.a").data
        = (stem ++ ".a").data
      rw [hdata, string_data_append stem ".a"]
      apply pyReplaceAux_unique_end "-static.a".data ".a".data (by decide) staticPat_nso
        (stem.data ++ "-static.a".data).length stem.data (le_refl _)
      have hc' : countOccAux "-static.a".data (stem.data ++ "-static.a".data).length
          (stem.data ++ "-static.a".data) = 1 := by
        show countOccL "-static.a".data (stem.data ++ "-static.a".data) = 1
        rw [← hdata]
        exact hc
      exact hc'

/-- C2 is false: `IntlTarget` is declared as `class IntlTarget(GettextTarget)`
(library.py), inheriting from — and through `super().configure` invoking —
`GettextTarget`, which is defined in this repository. -/
theorem c2_counterexample :
    dependsOn TargetClass.IntlTarget TargetClass.GettextTarget = true ∧
      TargetClass.IntlTarget ≠ TargetClass.GettextTarget := by
  decide

/-- C2 amended: apart from `IntlTarget`, which inherits from (and whose
`configure` invokes) `GettextTarget`, no target class defined in this
repository inherits from or invokes another: the only dependent pair of
distinct target classes is (`IntlTarget`, `GettextTarget`). -/
theorem c2_amended_only_intl_depends :
    ∀ c c' : TargetClass, c ≠ c' → dependsOn c c' = true →
      c = TargetClass.IntlTarget ∧ c' = TargetClass.GettextTarget := by
  intro c c'
  cases c <;> cases c' <;> decide

/-- Witness for C2's amended claim at the dependent pair itself. -/
theorem c2_amended_witness :
    TargetClass.IntlTarget = TargetClass.IntlTarget ∧
      TargetClass.GettextTarget = TargetClass.GettextTarget :=
  c2_amended_only_intl_depends TargetClass.IntlTarget TargetClass.GettextTarget
    (by decide) (by decide)

/-- C3 is false: `IntlTarget.configure` assigns
`self.src_root = 'gettext-runtime'`, mutating an attribute of the target
object itself during a hook call; from sample attributes with
`src_root = 'gettext'` the hook returns attributes with
`src_root = 'gettext-runtime'`. -/
theorem c3_counterexample :
    (IntlTarget.configure sampleAttrs sampleState).attrs ≠ sampleAttrs ∧
      (IntlTarget.configure sampleAttrs sampleState).attrs.src_root = "gettext-runtime" ∧
      sampleAttrs.src_root = "gettext" := by
  refine ⟨by decide, rfl, rfl⟩

/-- C3 amended: recipe values are static during a build invocation for every
hook except `IntlTarget.configure` and `IntlTarget.build`: every other
`configure`/`build`/`post_build` hook and every `prepare_source` hook leaves
the target object's attributes unchanged (mutating only the externally
supplied build state), every `detect` hook is a pure read of type
`BuildState → Bool`, while `IntlTarget.configure` sets `src_root` to
`'gettext-runtime'` and `IntlTarget.build` appends `'/intl'` to `src_root`. -/
theorem c3_amended_attrs_static :
    (∀ t, PreservesAttrs (prepare_source_hook t)) ∧
    PreservesAttrs BrotliTarget.post_build ∧
    PreservesAttrs Bzip2Target.configure ∧
    PreservesAttrs Bzip2Target.post_build ∧
    PreservesAttrs ExpatTarget.configure ∧
    PreservesAttrs FfiTarget.post_build ∧
    PreservesAttrs FreeImageTarget.configure ∧
    PreservesAttrs FreeImageTarget.post_build ∧
    PreservesAttrs GettextTarget.configure ∧
    PreservesAttrs HighwayTarget.configure ∧
    PreservesAttrs IconvTarget.configure ∧
    PreservesAttrs IntlTarget.post_build ∧
    PreservesAttrs JpegTurboTarget.configure ∧
    PreservesAttrs TiffTarget.configure ∧
    PreservesAttrs WxWidgetsTarget.configure ∧
    PreservesAttrs WxWidgetsTarget.post_build ∧
    PreservesAttrs Bzip3Target.configure ∧
    PreservesAttrs FFmpegTarget.configure ∧
    PreservesAttrs LuaTarget.post_build ∧
    PreservesAttrs P7ZipTarget.post_build ∧
    PreservesAttrs Radare2Target.configure ∧
    PreservesAttrs Radare2Target.post_build ∧
    PreservesAttrs RizinTarget.configure ∧
    PreservesAttrs SevenZipTarget.build ∧
    PreservesAttrs SevenZipTarget.post_build ∧
    PreservesAttrs UnrarTarget.configure ∧
    PreservesAttrs UnrarTarget.post_build ∧
    PreservesAttrs XdeltaTarget.configure ∧
    PreservesAttrs XzTarget.configure ∧
    (∀ a s, (IntlTarget.configure a s).attrs = { a with src_root := "gettext-runtime" }) ∧
    (∀ a s, (IntlTarget.build a s).attrs = { a with src_root := a.src_root ++ "/intl" }) := by
  refine ⟨fun t a s => rfl, fun a s => rfl, fun a s => rfl, fun a s => rfl, fun a s => rfl,
    fun a s => rfl, ?_, fun a s => rfl, fun a s => rfl, fun a s => rfl, fun a s => rfl,
    fun a s => rfl, fun a s => rfl, fun a s => rfl, fun a s => rfl, fun a s => rfl,
    fun a s => rfl, fun a s => rfl, fun a s => rfl, fun a s => rfl, fun a s => rfl,
    fun a s => rfl, fun a s => rfl, ?_, fun a s => rfl, fun a s => rfl, fun a s => rfl,
    ?_, ?_, fun a s => rfl, fun a s => rfl⟩
  · intro a s
    unfold FreeImageTarget.configure
    dsimp only
    repeat' split
    all_goals rfl
  · intro a s
    unfold SevenZipTarget.build
    dsimp only
    repeat' split
    all_goals rfl
  · intro a s
    unfold XdeltaTarget.configure
    dsimp only
    repeat' split
    all_goals rfl
  · intro a s
    unfold XzTarget.configure
    dsimp only
    repeat' split
    all_goals rfl

/-- C4: for every target returned by `targets()`, `prepare_source` performs
exactly one `download_source` call, specifying exactly one source URL together
with exactly one 64-character hexadecimal SHA-256 checksum, and at most one
optional patch set (the call's `patches : Option String`). -/
theorem c4_prepare_source_shape :
    ∀ t : TargetClass, (prepareSourceCalls t).length = 1 ∧
      (prepareSourceCalls t).all (fun c => sha256Shape c.checksum) = true := by
  intro t
  cases t <;> exact ⟨rfl, by decide⟩

/-- C5: `targets()` returns a single flat tuple of 31 entries — the thirteen
library targets first, followed by the eighteen tool targets — with exactly
one instance per target class and no duplicated package name. -/
theorem c5_targets_tuple :
    targetsReturn.length = 31 ∧
    (targetsReturn.take 13).length = 13 ∧
    (targetsReturn.take 13).all (fun e => e.isLibrary) = true ∧
    (targetsReturn.drop 13).length = 18 ∧
    (targetsReturn.drop 13).all (fun e => !e.isLibrary) = true ∧
    (targetsReturn.map (fun e => e.cls)).Nodup ∧
    (targetsReturn.map (fun e => e.pkgName)).Nodup := by
  refine ⟨rfl, rfl, rfl, rfl, rfl, by decide, by decide⟩

/-- C6: each `detect` hook defined in this repository returns true iff all of
the target's marker files are present in the source tree; in particular
`P7ZipTarget.detect` is true iff both `'CPP/7zip/CMAKE/CMakeLists.txt'` and
`'C/fast-lzma2/fast-lzma2.h'` are present and `Bzip2Target.detect` is true iff
`'bzlib.h'` is present.  `detect` has type `BuildState → Bool`, so it reads
the state and modifies nothing. -/
theorem c6_detect_markers :
    (∀ s, P7ZipTarget.detect s
      = (hasSourceFile s "CPP/7zip/CMAKE/CMakeLists.txt" &&
          hasSourceFile s "C/fast-lzma2/fast-lzma2.h")) ∧
    (∀ s, Bzip2Target.detect s = hasSourceFile s "bzlib.h") ∧
    (∀ t s, (detectOf t).map (fun d => d s)
      = (markerFilesOf t).map (fun files => files.all (fun f => hasSourceFile s f))) := by
  refine ⟨fun s => rfl, fun s => rfl, ?_⟩
  intro t s
  cases t <;>
    simp [detectOf, markerFilesOf, Bzip2Target.detect, FfiTarget.detect,
      FreeImageTarget.detect, GettextTarget.detect, IconvTarget.detect, FFmpegTarget.detect,
      LuaTarget.detect, P7ZipTarget.detect, PbzxTarget.detect, Radare2Target.detect,
      RizinTarget.detect, SevenZipTarget.detect, UnrarTarget.detect, XdeltaTarget.detect,
      ZipTarget.detect]

/-- C7: no recipe catches or transforms a failure — every raised error
propagates in the hook's result — and in particular `XdeltaTarget.configure`
runs `autoreconf` with `check=True` and raises `CalledProcessError`, performing
none of the subsequent configure steps (its trace gains no final
`super().configure` action), exactly when the subprocess exits with a non-zero
status; on a zero status it returns normally having performed all three
steps in order. -/
theorem c7_xdelta_configure_propagates :
    ∀ a s,
      (s.exitCodes XdeltaTarget.autoreconfCmd = 0 →
        XdeltaTarget.configure a s = .ok a { s with trace := s.trace ++
          [HostAction.superCall "MakeTarget.configure",
           HostAction.run XdeltaTarget.autoreconfCmd (s.buildPath ++ "/" ++ a.src_root) true,
           HostAction.superCall "ConfigureMakeDependencyTarget.configure"] }) ∧
      (s.exitCodes XdeltaTarget.autoreconfCmd ≠ 0 →
        XdeltaTarget.configure a s = .err "CalledProcessError" a { s with trace := s.trace ++
          [HostAction.superCall "MakeTarget.configure",
           HostAction.run XdeltaTarget.autoreconfCmd (s.buildPath ++ "/" ++ a.src_root) true] }) := by
  intro a s
  constructor
  · intro h
    simp [XdeltaTarget.configure, addAction, h]
  · intro h
    simp [XdeltaTarget.configure, addAction, h]

/-- Witness for C7: with every exit status 0 the hook returns normally having
traced all three steps; with every exit status 1 it raises
`CalledProcessError` without the final configure step. -/
theorem c7_witness :
    XdeltaTarget.configure xdeltaAttrs sampleState = .ok xdeltaAttrs { sampleState with
        trace := sampleState.trace ++
          [HostAction.superCall "MakeTarget.configure",
           HostAction.run XdeltaTarget.autoreconfCmd
             (sampleState.buildPath ++ "/" ++ xdeltaAttrs.src_root) true,
           HostAction.superCall "ConfigureMakeDependencyTarget.configure"] } ∧
    XdeltaTarget.configure xdeltaAttrs sampleStateFail = .err "CalledProcessError" xdeltaAttrs
      { sampleStateFail with trace := sampleStateFail.trace ++
          [HostAction.superCall "MakeTarget.configure",
           HostAction.run XdeltaTarget.autoreconfCmd
             (sampleStateFail.buildPath ++ "/" ++ xdeltaAttrs.src_root) true] } :=
  ⟨(c7_xdelta_configure_propagates xdeltaAttrs sampleState).1 rfl,
   (c7_xdelta_configure_propagates xdeltaAttrs sampleStateFail).2 (by decide)⟩

theorem lookup_setAssoc_self (k : String) (v : Option String) :
    ∀ l, (setAssoc k v l).lookup k = some v := by
  intro l
  induction l with
  | nil => simp [setAssoc]
  | cons kv rest ih =>
    obtain ⟨k', v'⟩ := kv
    by_cases h : k' = k
    · subst h
      simp [setAssoc, List.lookup]
    · have hb : (k' == k) = false := beq_eq_false_iff_ne.mpr h
      have hb' : (k == k') = false := beq_eq_false_iff_ne.mpr (Ne.symm h)
      simp [setAssoc, hb, List.lookup, hb', ih]

theorem lookup_setAssoc_ne (k k' : String) (v : Option String) (hne : k ≠ k') :
    ∀ l, (setAssoc k' v l).lookup k = l.lookup k := by
  intro l
  have hb : (k == k') = false := beq_eq_false_iff_ne.mpr hne
  induction l with
  | nil => simp [setAssoc, List.lookup, hb]
  | cons kv rest ih =>
    obtain ⟨k₀, v₀⟩ := kv
    by_cases h : k₀ = k'
    · subst h
      have hbk : (k == k₀) = false := beq_eq_false_iff_ne.mpr hne
      simp [setAssoc, List.lookup, hbk]
    · have hb₀ : (k₀ == k') = false := beq_eq_false_iff_ne.mpr h
      by_cases hk : k = k₀
      · subst hk
        simp [setAssoc, hb₀, List.lookup]
      · have hbk : (k == k₀) = false := beq_eq_false_iff_ne.mpr hk
        simp [setAssoc, hb₀, List.lookup, hbk, ih]

/-- C9: `XzTarget.configure` appends to pre-existing option values rather than
assigning them: it requires that `state.options` already maps
`'BUILD_TESTING'` and `'CMAKE_EXE_LINKER_FLAGS'` to string values, raises a
`KeyError` when either key is absent, and on success the new values are the
prior values with `'NO'` and `'-framework CoreFoundation -liconv'` appended
respectively (so each prior value remains a prefix of the new value). -/
theorem c9_xz_configure_appends :
    ∀ a s,
      (lookupOpt s "BUILD_TESTING" = none →
        XzTarget.configure a s = .err "KeyError: BUILD_TESTING" a s) ∧
      (∀ v, lookupOpt s "BUILD_TESTING" = some (some v) →
        lookupOpt s "CMAKE_EXE_LINKER_FLAGS" = none →
        XzTarget.configure a s = .err "KeyError: CMAKE_EXE_LINKER_FLAGS" a
          (setOpt s "BUILD_TESTING" (some (v ++ "NO")))) ∧
      (∀ v w, lookupOpt s "BUILD_TESTING" = some (some v) →
        lookupOpt s "CMAKE_EXE_LINKER_FLAGS" = some (some w) →
        (XzTarget.configure a s).isOk = true ∧
        lookupOpt (XzTarget.configure a s).state "BUILD_TESTING" = some (some (v ++ "NO")) ∧
        lookupOpt (XzTarget.configure a s).state "CMAKE_EXE_LINKER_FLAGS"
          = some (some (w ++ "-framework CoreFoundation -liconv"))) := by
  intro a s
  have hne : ("BUILD_TESTING" : String) ≠ "CMAKE_EXE_LINKER_FLAGS" := by decide
  refine ⟨?_, ?_, ?_⟩
  · intro h
    simp [XzTarget.configure, h]
  · intro v hv hcelf
    have h₂ : lookupOpt (setOpt s "BUILD_TESTING" (some (v ++ "NO"))) "CMAKE_EXE_LINKER_FLAGS"
        = none := by
      show (setAssoc "BUILD_TESTING" (some (v ++ "NO")) s.options).lookup
        "CMAKE_EXE_LINKER_FLAGS" = none
      rw [lookup_setAssoc_ne _ _ _ (Ne.symm hne)]
      exact hcelf
    simp [XzTarget.configure, hv, h₂]
  · intro v w hv hw
    have h₂ : lookupOpt (setOpt s "BUILD_TESTING" (some (v ++ "NO"))) "CMAKE_EXE_LINKER_FLAGS"
        = some (some w) := by
      show (setAssoc "BUILD_TESTING" (some (v ++ "NO")) s.options).lookup
        "CMAKE_EXE_LINKER_FLAGS" = some (some w)
      rw [lookup_setAssoc_ne _ _ _ (Ne.symm hne)]
      exact hw
    have hcfg : XzTarget.configure a s = .ok a (addAction
        (setOpt (setOpt s "BUILD_TESTING" (some (v ++ "NO"))) "CMAKE_EXE_LINKER_FLAGS"
          (some (w ++ "-framework CoreFoundation -liconv")))
        (.superCall "CMakeStaticDependencyTarget.configure")) := by
      simp [XzTarget.configure, hv, h₂]
    refine ⟨by rw [hcfg]; rfl, ?_, ?_⟩
    · rw [hcfg]
      show (setAssoc "CMAKE_EXE_LINKER_FLAGS" (some (w ++ "-framework CoreFoundation -liconv"))
        (setAssoc "BUILD_TESTING" (some (v ++ "NO")) s.options)).lookup "BUILD_TESTING"
        = some (some (v ++ "NO"))
      rw [lookup_setAssoc_ne _ _ _ hne, lookup_setAssoc_self]
    · rw [hcfg]
      show (setAssoc "CMAKE_EXE_LINKER_FLAGS" (some (w ++ "-framework CoreFoundation -liconv"))
        (setAssoc "BUILD_TESTING" (some (v ++ "NO")) s.options)).lookup "CMAKE_EXE_LINKER_FLAGS"
        = some (some (w ++ "-framework CoreFoundation -liconv"))
      rw [lookup_setAssoc_self]

/-- Witness for C9: on an option mapping without `'BUILD_TESTING'` the hook
raises `KeyError`; on one mapping `'BUILD_TESTING'` to `'ON;'` and
`'CMAKE_EXE_LINKER_FLAGS'` to `'-lz '` it succeeds and appends to both
values. -/
theorem c9_witness :
    XzTarget.configure sampleAttrs sampleState
      = .err "KeyError: BUILD_TESTING" sampleAttrs sampleState ∧
    ((XzTarget.configure sampleAttrs sampleStateXz).isOk = true ∧
      lookupOpt (XzTarget.configure sampleAttrs sampleStateXz).state "BUILD_TESTING"
        = some (some ("ON;" ++ "NO")) ∧
      lookupOpt (XzTarget.configure sampleAttrs sampleStateXz).state "CMAKE_EXE_LINKER_FLAGS"
        = some (some ("-lz " ++ "-framework CoreFoundation -liconv"))) :=
  ⟨(c9_xz_configure_appends sampleAttrs sampleState).1 rfl,
   (c9_xz_configure_appends sampleAttrs sampleStateXz).2.2 "ON;" "-lz " rfl rfl⟩
